import Mathlib

/-!
Shallow embedding of the camera capture-and-process workflow of
`src/src/app/layout.tsx`.  The file holds two near-identical React components
(`CameraApp`): a contour-counting variant and a pixel-counting variant.  Each
keeps view-local state (`isStreaming`, `capturedImage`, a numeric result,
`error`, `isProcessing`) plus the DOM video element's `srcObject`; operations
are the handlers `startCamera`, `stopCamera`, `captureImage`, `processImage`
and `resetCapture` / `retakeImage`.  We model the DOM refs and the platform
media grant as per-call environment inputs, the OpenCV.js collaborator as an
oracle (`CvBehavior`), and record stopped media tracks and surviving cv
allocations as ghost data so that resource claims are statable.
-/

/-- Availability of the DOM refs read by a handler: `videoRef.current`,
`canvasRef.current` and `canvasRef.current.getContext("2d")`. -/
structure Env where
  videoPresent : Bool
  canvasPresent : Bool
  contextOk : Bool
deriving DecidableEq

/-- Outcome of `navigator.mediaDevices.getUserMedia`: a granted stream
(identified by a numeric handle) or a rejection (permission denied / no
device). -/
inductive MediaOutcome
  | granted (stream : Nat)
  | denied
deriving DecidableEq

/-- The error message set by `startCamera` on `getUserMedia` rejection. -/
def cameraErrorMsg : String :=
  "Camera access failed. Please check your camera permissions in both Chrome and MacOS:\n" ++
  "1. Chrome: Click the camera icon in address bar\n" ++
  "2. MacOS: System Settings > Privacy & Security > Camera"

/-- The error message set by `processImage` when `window.cv` is absent or no
image has been captured. -/
def cvGuardErrorMsg : String := "OpenCV.js not loaded or no image captured"

namespace Contour

/-- View-local state of the contour-counting `CameraApp` variant
(first component in `layout.tsx`), plus the video element's `srcObject`
and a ghost history `stoppedTracks` of stream handles whose tracks were
stopped. `objectCount` starts at 0; the UI treats 0 as "no result". -/
structure CameraState where
  isStreaming : Bool
  capturedImage : Option String
  objectCount : Nat
  error : Option String
  isProcessing : Bool
  srcObject : Option Nat
  stoppedTracks : List Nat
deriving DecidableEq

/-- The `useState` initial values: not streaming, no captured image, count 0,
no error, not processing; the video element starts with no `srcObject`. -/
def initialState : CameraState :=
  { isStreaming := false, capturedImage := none, objectCount := 0,
    error := none, isProcessing := false, srcObject := none,
    stoppedTracks := [] }

/-- `startCamera`: awaits `getUserMedia`; on grant, if `videoRef.current` is
non-null, binds the stream to the video element, sets `isStreaming` and clears
`error`; if the ref is null the grant is silently dropped (the stream is
neither bound nor stopped).  On rejection it sets the camera error message. -/
def startCamera (env : Env) (o : MediaOutcome) (s : CameraState) : CameraState :=
  match o with
  | .granted stream =>
      if env.videoPresent then
        { s with srcObject := some stream, isStreaming := true, error := none }
      else s
  | .denied => { s with error := some cameraErrorMsg }

/-- `stopCamera`: if `videoRef.current` and its `srcObject` are non-null,
stops every track of the bound stream, detaches it and clears `isStreaming`;
otherwise does nothing. -/
def stopCamera (env : Env) (s : CameraState) : CameraState :=
  if env.videoPresent then
    match s.srcObject with
    | some t =>
        { s with stoppedTracks := s.stoppedTracks ++ [t],
                 srcObject := none, isStreaming := false }
    | none => s
  else s

/-- `captureImage`: if both refs are non-null and a 2d context is available,
draws the current video frame, stores its data URL (`frame`, an environment
input standing for `canvas.toDataURL`) in `capturedImage`, then calls
`stopCamera`. No `isStreaming` check is made by the function itself. -/
def captureImage (env : Env) (frame : String) (s : CameraState) : CameraState :=
  if env.videoPresent && env.canvasPresent then
    if env.contextOk then
      stopCamera env { s with capturedImage := some frame }
    else s
  else s

/-- Behaviour of the OpenCV.js collaborator during one `processImage` call:
either every call succeeds and `findContours` yields contours with the given
areas, or the k-th cv operation (0-indexed, in source order: imread, new Mat
gray, cvtColor, new Mat blurred, GaussianBlur, new Mat thresh, threshold, new
MatVector contours, new Mat hierarchy, findContours, then the counting loop)
throws with message `msg`. -/
inductive CvBehavior
  | ok (areas : List Nat)
  | throwAt (k : Nat) (msg : String)
deriving DecidableEq

/-- The loop `for i in 0..contours.size(): if contourArea(contours.get(i)) >
100 then count++`. -/
def qualifyingCount (areas : List Nat) : Nat :=
  (areas.filter (fun a => 100 < a)).length

/-- Allocation schedule of `processImage`: which cv operation allocates which
structure. Op 0 = `cv.imread` allocates `mat`; op 1 = `new cv.Mat()` allocates
`gray`; op 3 allocates `blurred`; op 5 allocates `thresh`; op 7 allocates
`contours`; op 8 allocates `hierarchy`. -/
def cvAllocs : List (Nat × String) :=
  [(0, "mat"), (1, "gray"), (3, "blurred"), (5, "thresh"),
   (7, "contours"), (8, "hierarchy")]

/-- Structures already allocated when the k-th cv operation runs (hence leaked
if it throws: control jumps to `catch`, past every `delete`). -/
def allocsBefore (k : Nat) : List String :=
  (cvAllocs.filter (fun p => p.1 < k)).map Prod.snd

/-- First half of `processImage`, up to the `try`: the guard
`!window.cv || !capturedImage` sets the guard error and returns; otherwise
`setIsProcessing(true)`.  (This variant does not clear `error` here.) -/
def processImageStart (cvLoaded : Bool) (s : CameraState) : CameraState :=
  if cvLoaded && s.capturedImage.isSome then
    { s with isProcessing := true }
  else
    { s with error := some cvGuardErrorMsg }

/-- Second half of `processImage` (the `try`/`catch`/`finally`): on success
every structure is deleted and `objectCount` is set to the number of contours
with area > 100; if the k-th cv operation throws, the error message is set and
the structures allocated before op k are never deleted. `setIsProcessing
(false)` runs in `finally` on both paths. Returns the final state together
with the list of cv structures still allocated when the call completes. -/
def processImageFinish (b : CvBehavior) (s : CameraState) :
    CameraState × List String :=
  match b with
  | .ok areas =>
      ({ s with objectCount := qualifyingCount areas, isProcessing := false },
       [])
  | .throwAt k msg =>
      ({ s with error := some ("Error processing image: " ++ msg),
                isProcessing := false },
       allocsBefore k)

/-- Result of one whole `processImage` call: the final state, the cv
structures left allocated, and whether the collaborator was invoked at all. -/
structure ProcessTrace where
  state : CameraState
  allocated : List String
  cvCalled : Bool
deriving DecidableEq

/-- `processImage` in full: guard, then the try/catch/finally body. -/
def processImage (cvLoaded : Bool) (b : CvBehavior) (s : CameraState) :
    ProcessTrace :=
  if cvLoaded && s.capturedImage.isSome then
    let fin := processImageFinish b (processImageStart cvLoaded s)
    { state := fin.1, allocated := fin.2, cvCalled := true }
  else
    { state := processImageStart cvLoaded s, allocated := [],
      cvCalled := false }

/-- A click on the Process button: the button carries
`disabled := isProcessing`, so a click while processing does nothing at all. -/
def processImageClick (cvLoaded : Bool) (b : CvBehavior) (s : CameraState) :
    ProcessTrace :=
  if s.isProcessing then { state := s, allocated := [], cvCalled := false }
  else processImage cvLoaded b s

/-- `resetCapture`: clears `capturedImage` and `objectCount`, then invokes
`startCamera`. -/
def resetCapture (env : Env) (o : MediaOutcome) (s : CameraState) :
    CameraState :=
  startCamera env o { s with capturedImage := none, objectCount := 0 }

end Contour

namespace Pixel

/-- View-local state of the pixel-counting `CameraApp` variant (second
component in `layout.tsx`): identical to the contour variant except that the
result is `processedResult : Option Nat` (`number | null`), absent until a
processing call succeeds. -/
structure CameraState where
  isStreaming : Bool
  capturedImage : Option String
  processedResult : Option Nat
  error : Option String
  isProcessing : Bool
  srcObject : Option Nat
  stoppedTracks : List Nat
deriving DecidableEq

/-- The `useState` initial values of the pixel variant. -/
def initialState : CameraState :=
  { isStreaming := false, capturedImage := none, processedResult := none,
    error := none, isProcessing := false, srcObject := none,
    stoppedTracks := [] }

/-- `startCamera` of the pixel variant; textually identical to the contour
variant's. -/
def startCamera (env : Env) (o : MediaOutcome) (s : CameraState) : CameraState :=
  match o with
  | .granted stream =>
      if env.videoPresent then
        { s with srcObject := some stream, isStreaming := true, error := none }
      else s
  | .denied => { s with error := some cameraErrorMsg }

/-- `stopCamera` of the pixel variant; textually identical to the contour
variant's. -/
def stopCamera (env : Env) (s : CameraState) : CameraState :=
  if env.videoPresent then
    match s.srcObject with
    | some t =>
        { s with stoppedTracks := s.stoppedTracks ++ [t],
                 srcObject := none, isStreaming := false }
    | none => s
  else s

/-- `captureImage` of the pixel variant; textually identical to the contour
variant's. -/
def captureImage (env : Env) (frame : String) (s : CameraState) : CameraState :=
  if env.videoPresent && env.canvasPresent then
    if env.contextOk then
      stopCamera env { s with capturedImage := some frame }
    else s
  else s

/-- Behaviour of the OpenCV.js collaborator during one pixel-variant
`processImage` call: either every call succeeds and `countNonZero` returns
`n`, or the k-th cv operation (0-indexed, in source order: imread, new Mat
gray, cvtColor, countNonZero) throws with message `msg`. -/
inductive CvBehavior
  | ok (n : Nat)
  | throwAt (k : Nat) (msg : String)
deriving DecidableEq

/-- Allocation schedule of the pixel variant's `processImage`: op 0 =
`cv.imread` allocates `mat`; op 1 = `new cv.Mat()` allocates `gray`. -/
def cvAllocs : List (Nat × String) := [(0, "mat"), (1, "gray")]

/-- Structures already allocated when the k-th cv operation runs (leaked if it
throws). -/
def allocsBefore (k : Nat) : List String :=
  (cvAllocs.filter (fun p => p.1 < k)).map Prod.snd

/-- First half of the pixel variant's `processImage`: the same
`!window.cv || !capturedImage` guard, then `setIsProcessing(true)` and —
unlike the contour variant — `setError(null)`. -/
def processImageStart (cvLoaded : Bool) (s : CameraState) : CameraState :=
  if cvLoaded && s.capturedImage.isSome then
    { s with isProcessing := true, error := none }
  else
    { s with error := some cvGuardErrorMsg }

/-- Second half of the pixel variant's `processImage`: on success `mat` and
`gray` are deleted and `processedResult` is set to the `countNonZero` result;
on a throw at op k the error message is set and the structures allocated
before op k leak. `setIsProcessing(false)` runs in `finally`. -/
def processImageFinish (b : CvBehavior) (s : CameraState) :
    CameraState × List String :=
  match b with
  | .ok n =>
      ({ s with processedResult := some n, isProcessing := false }, [])
  | .throwAt k msg =>
      ({ s with error := some ("Error processing image: " ++ msg),
                isProcessing := false },
       allocsBefore k)

/-- Result of one whole pixel-variant `processImage` call. -/
structure ProcessTrace where
  state : CameraState
  allocated : List String
  cvCalled : Bool
deriving DecidableEq

/-- The pixel variant's `processImage` in full. -/
def processImage (cvLoaded : Bool) (b : CvBehavior) (s : CameraState) :
    ProcessTrace :=
  if cvLoaded && s.capturedImage.isSome then
    let fin := processImageFinish b (processImageStart cvLoaded s)
    { state := fin.1, allocated := fin.2, cvCalled := true }
  else
    { state := processImageStart cvLoaded s, allocated := [],
      cvCalled := false }

/-- A click on the pixel variant's Process button (`disabled :=
isProcessing`). -/
def processImageClick (cvLoaded : Bool) (b : CvBehavior) (s : CameraState) :
    ProcessTrace :=
  if s.isProcessing then { state := s, allocated := [], cvCalled := false }
  else processImage cvLoaded b s

/-- `retakeImage`: clears `capturedImage` and `processedResult`, then invokes
`startCamera`. -/
def retakeImage (env : Env) (o : MediaOutcome) (s : CameraState) :
    CameraState :=
  startCamera env o { s with capturedImage := none, processedResult := none }

end Pixel

namespace Contour

/-- The user-triggerable or platform-triggered events of the contour-variant
component, with their environment inputs. -/
inductive Act
  | start (env : Env) (o : MediaOutcome)
  | capture (env : Env) (frame : String)
  | processBegin (cvLoaded : Bool)
  | processDone (b : CvBehavior)
  | reset (env : Env) (o : MediaOutcome)
  | teardown (env : Env)

/-- One completed event of the contour-variant component.  Enabling
conditions are the render guards of the JSX: the Start button exists only
when `!isStreaming && !capturedImage`, the Capture button only when
`isStreaming`, the Process and New Capture buttons only when `capturedImage`
is non-null, and Process is `disabled` while `isProcessing`.  An asynchronous
`processImage` body (`processDone`) can only complete while a call is in
flight (`isProcessing`), and unmount (`teardown`) can always happen. -/
inductive UiStep : CameraState → Act → CameraState → Prop
  | start (env : Env) (o : MediaOutcome) (s : CameraState)
      (hstream : s.isStreaming = false) (himg : s.capturedImage = none) :
      UiStep s (.start env o) (startCamera env o s)
  | capture (env : Env) (frame : String) (s : CameraState)
      (hstream : s.isStreaming = true) :
      UiStep s (.capture env frame) (captureImage env frame s)
  | processBegin (cvLoaded : Bool) (s : CameraState)
      (himg : s.capturedImage.isSome) (hproc : s.isProcessing = false) :
      UiStep s (.processBegin cvLoaded) (processImageStart cvLoaded s)
  | processDone (b : CvBehavior) (s : CameraState)
      (hproc : s.isProcessing = true) :
      UiStep s (.processDone b) (processImageFinish b s).1
  | reset (env : Env) (o : MediaOutcome) (s : CameraState)
      (himg : s.capturedImage.isSome) :
      UiStep s (.reset env o) (resetCapture env o s)
  | teardown (env : Env) (s : CameraState) :
      UiStep s (.teardown env) (stopCamera env s)

/-- States of the contour-variant component reachable from mount by completed
events. -/
inductive Reachable : CameraState → Prop
  | init : Reachable initialState
  | step {s a s'} : Reachable s → UiStep s a s' → Reachable s'

end Contour

namespace Pixel

/-- The user-triggerable or platform-triggered events of the pixel-variant
component. -/
inductive Act
  | start (env : Env) (o : MediaOutcome)
  | capture (env : Env) (frame : String)
  | processBegin (cvLoaded : Bool)
  | processDone (b : CvBehavior)
  | retake (env : Env) (o : MediaOutcome)
  | teardown (env : Env)

/-- One completed event of the pixel-variant component; render guards are the
same as in the contour variant (the Retake button, like New Capture, exists
only when `capturedImage` is non-null). -/
inductive UiStep : CameraState → Act → CameraState → Prop
  | start (env : Env) (o : MediaOutcome) (s : CameraState)
      (hstream : s.isStreaming = false) (himg : s.capturedImage = none) :
      UiStep s (.start env o) (startCamera env o s)
  | capture (env : Env) (frame : String) (s : CameraState)
      (hstream : s.isStreaming = true) :
      UiStep s (.capture env frame) (captureImage env frame s)
  | processBegin (cvLoaded : Bool) (s : CameraState)
      (himg : s.capturedImage.isSome) (hproc : s.isProcessing = false) :
      UiStep s (.processBegin cvLoaded) (processImageStart cvLoaded s)
  | processDone (b : CvBehavior) (s : CameraState)
      (hproc : s.isProcessing = true) :
      UiStep s (.processDone b) (processImageFinish b s).1
  | retake (env : Env) (o : MediaOutcome) (s : CameraState)
      (himg : s.capturedImage.isSome) :
      UiStep s (.retake env o) (retakeImage env o s)
  | teardown (env : Env) (s : CameraState) :
      UiStep s (.teardown env) (stopCamera env s)

/-- States of the pixel-variant component reachable from mount. -/
inductive Reachable : CameraState → Prop
  | init : Reachable initialState
  | step {s a s'} : Reachable s → UiStep s a s' → Reachable s'

end Pixel

/-- "StreamHandle active and CapturedFrame present" never hold together
(contour variant): the exclusivity invariant of the data model. -/
def Contour.exclusive (s : Contour.CameraState) : Prop :=
  ¬(s.isStreaming = true ∧ s.srcObject.isSome = true ∧
    s.capturedImage.isSome = true)

/-- Exclusivity invariant, pixel variant. -/
def Pixel.exclusive (s : Pixel.CameraState) : Prop :=
  ¬(s.isStreaming = true ∧ s.srcObject.isSome = true ∧
    s.capturedImage.isSome = true)

/-- Which contour-variant events count as failing steps: a rejected
`getUserMedia` (directly or inside `resetCapture`), a `processImage` guard
failure, or a collaborator throw.  Capture and teardown never fail. -/
def Contour.StepFails (s : Contour.CameraState) : Contour.Act → Prop
  | .start _ o => o = .denied
  | .capture _ _ => False
  | .processBegin cvLoaded => (cvLoaded && s.capturedImage.isSome) = false
  | .processDone b => ∃ k msg, b = .throwAt k msg
  | .reset _ o => o = .denied
  | .teardown _ => False

/-- Which pixel-variant events count as failing steps. -/
def Pixel.StepFails (s : Pixel.CameraState) : Pixel.Act → Prop
  | .start _ o => o = .denied
  | .capture _ _ => False
  | .processBegin cvLoaded => (cvLoaded && s.capturedImage.isSome) = false
  | .processDone b => ∃ k msg, b = .throwAt k msg
  | .retake _ o => o = .denied
  | .teardown _ => False

/-- An environment in which every DOM ref is available. -/
def allRefs : Env := { videoPresent := true, canvasPresent := true, contextOk := true }

/-- An environment in which the video ref is null but the others are
available. -/
def noVideoRef : Env := { videoPresent := false, canvasPresent := true, contextOk := true }

/-- A concrete contour-variant state with a captured frame (as after a
successful capture). -/
def Contour.sampleCaptured : Contour.CameraState :=
  { Contour.initialState with
    capturedImage := some "data:image/jpeg;base64,AAAA"
    stoppedTracks := [0] }

/-- A concrete pixel-variant state with a captured frame. -/
def Pixel.sampleCaptured : Pixel.CameraState :=
  { Pixel.initialState with
    capturedImage := some "data:image/jpeg;base64,AAAA"
    stoppedTracks := [0] }

/-! ### Helper lemmas -/

theorem contour_exclusive_init : Contour.exclusive Contour.initialState := by
  simp [Contour.exclusive, Contour.initialState]

theorem contour_stopCamera_exclusive (env : Env) (u : Contour.CameraState)
    (hv : env.videoPresent = true) :
    Contour.exclusive (Contour.stopCamera env u) := by
  unfold Contour.stopCamera
  simp only [hv, if_true]
  cases hsrc : u.srcObject with
  | some t => simp [Contour.exclusive]
  | none => simp [Contour.exclusive, hsrc]

theorem contour_startCamera_exclusive_of_noframe (env : Env) (o : MediaOutcome)
    (u : Contour.CameraState) (himg : u.capturedImage = none) :
    Contour.exclusive (Contour.startCamera env o u) := by
  cases o with
  | granted stream =>
      by_cases hv : env.videoPresent = true <;>
        simp [Contour.startCamera, Contour.exclusive, himg, hv]
  | denied => simp [Contour.startCamera, Contour.exclusive, himg]

theorem contour_exclusive_step {s : Contour.CameraState} {a : Contour.Act}
    {s' : Contour.CameraState} (h : Contour.UiStep s a s')
    (hs : Contour.exclusive s) : Contour.exclusive s' := by
  cases h with
  | start env o s hstream himg =>
      exact contour_startCamera_exclusive_of_noframe env o s himg
  | capture env frame s hstream =>
      unfold Contour.captureImage
      split
      case isTrue hvc =>
        split
        case isTrue hctx =>
          have hv : env.videoPresent = true := by
            revert hvc
            cases env.videoPresent <;> simp
          exact contour_stopCamera_exclusive env _ hv
        case isFalse _ => exact hs
      case isFalse _ => exact hs
  | processBegin cvLoaded s himg hproc =>
      unfold Contour.processImageStart
      split <;> simpa [Contour.exclusive] using hs
  | processDone b s hproc =>
      cases b <;> simpa [Contour.processImageFinish, Contour.exclusive] using hs
  | reset env o s himg =>
      exact contour_startCamera_exclusive_of_noframe env o _ (by simp)
  | teardown env s =>
      by_cases hv : env.videoPresent = true
      · exact contour_stopCamera_exclusive env s hv
      · simp only [Bool.not_eq_true] at hv
        unfold Contour.stopCamera
        simp only [hv, if_false]
        exact hs

theorem contour_reachable_exclusive {s : Contour.CameraState}
    (h : Contour.Reachable s) : Contour.exclusive s := by
  induction h with
  | init => exact contour_exclusive_init
  | step hr hstep ih => exact contour_exclusive_step hstep ih

theorem pixel_exclusive_init : Pixel.exclusive Pixel.initialState := by
  simp [Pixel.exclusive, Pixel.initialState]

theorem pixel_stopCamera_exclusive (env : Env) (u : Pixel.CameraState)
    (hv : env.videoPresent = true) :
    Pixel.exclusive (Pixel.stopCamera env u) := by
  unfold Pixel.stopCamera
  simp only [hv, if_true]
  cases hsrc : u.srcObject with
  | some t => simp [Pixel.exclusive]
  | none => simp [Pixel.exclusive, hsrc]

theorem pixel_startCamera_exclusive_of_noframe (env : Env) (o : MediaOutcome)
    (u : Pixel.CameraState) (himg : u.capturedImage = none) :
    Pixel.exclusive (Pixel.startCamera env o u) := by
  cases o with
  | granted stream =>
      by_cases hv : env.videoPresent = true <;>
        simp [Pixel.startCamera, Pixel.exclusive, himg, hv]
  | denied => simp [Pixel.startCamera, Pixel.exclusive, himg]

theorem pixel_exclusive_step {s : Pixel.CameraState} {a : Pixel.Act}
    {s' : Pixel.CameraState} (h : Pixel.UiStep s a s')
    (hs : Pixel.exclusive s) : Pixel.exclusive s' := by
  cases h with
  | start env o s hstream himg =>
      exact pixel_startCamera_exclusive_of_noframe env o s himg
  | capture env frame s hstream =>
      unfold Pixel.captureImage
      split
      case isTrue hvc =>
        split
        case isTrue hctx =>
          have hv : env.videoPresent = true := by
            revert hvc
            cases env.videoPresent <;> simp
          exact pixel_stopCamera_exclusive env _ hv
        case isFalse _ => exact hs
      case isFalse _ => exact hs
  | processBegin cvLoaded s himg hproc =>
      unfold Pixel.processImageStart
      split <;> simpa [Pixel.exclusive] using hs
  | processDone b s hproc =>
      cases b <;> simpa [Pixel.processImageFinish, Pixel.exclusive] using hs
  | retake env o s himg =>
      exact pixel_startCamera_exclusive_of_noframe env o _ (by simp)
  | teardown env s =>
      by_cases hv : env.videoPresent = true
      · exact pixel_stopCamera_exclusive env s hv
      · simp only [Bool.not_eq_true] at hv
        unfold Pixel.stopCamera
        simp only [hv, if_false]
        exact hs

theorem pixel_reachable_exclusive {s : Pixel.CameraState}
    (h : Pixel.Reachable s) : Pixel.exclusive s := by
  induction h with
  | init => exact pixel_exclusive_init
  | step hr hstep ih => exact pixel_exclusive_step hstep ih

theorem contour_captureImage_releases (env : Env) (frame : String)
    (s : Contour.CameraState) (t : Nat)
    (hv : env.videoPresent = true) (hc : env.canvasPresent = true)
    (hctx : env.contextOk = true) (hsrc : s.srcObject = some t) :
    (Contour.captureImage env frame s).capturedImage = some frame ∧
    (Contour.captureImage env frame s).srcObject = none ∧
    (Contour.captureImage env frame s).isStreaming = false := by
  unfold Contour.captureImage Contour.stopCamera
  simp [hv, hc, hctx, hsrc]

theorem pixel_captureImage_releases (env : Env) (frame : String)
    (s : Pixel.CameraState) (t : Nat)
    (hv : env.videoPresent = true) (hc : env.canvasPresent = true)
    (hctx : env.contextOk = true) (hsrc : s.srcObject = some t) :
    (Pixel.captureImage env frame s).capturedImage = some frame ∧
    (Pixel.captureImage env frame s).srcObject = none ∧
    (Pixel.captureImage env frame s).isStreaming = false := by
  unfold Pixel.captureImage Pixel.stopCamera
  simp [hv, hc, hctx, hsrc]

theorem contour_startCamera_fields (env : Env) (o : MediaOutcome)
    (s : Contour.CameraState) :
    (Contour.startCamera env o s).capturedImage = s.capturedImage ∧
    (Contour.startCamera env o s).objectCount = s.objectCount ∧
    (Contour.startCamera env o s).isProcessing = s.isProcessing ∧
    (Contour.startCamera env o s).stoppedTracks = s.stoppedTracks := by
  cases o with
  | granted stream =>
      by_cases hv : env.videoPresent = true <;> simp [Contour.startCamera, hv]
  | denied => simp [Contour.startCamera]

theorem pixel_startCamera_fields (env : Env) (o : MediaOutcome)
    (s : Pixel.CameraState) :
    (Pixel.startCamera env o s).capturedImage = s.capturedImage ∧
    (Pixel.startCamera env o s).processedResult = s.processedResult ∧
    (Pixel.startCamera env o s).isProcessing = s.isProcessing ∧
    (Pixel.startCamera env o s).stoppedTracks = s.stoppedTracks := by
  cases o with
  | granted stream =>
      by_cases hv : env.videoPresent = true <;> simp [Pixel.startCamera, hv]
  | denied => simp [Pixel.startCamera]

theorem contour_stopCamera_fields (env : Env) (s : Contour.CameraState) :
    (Contour.stopCamera env s).capturedImage = s.capturedImage ∧
    (Contour.stopCamera env s).objectCount = s.objectCount ∧
    (Contour.stopCamera env s).isProcessing = s.isProcessing ∧
    (Contour.stopCamera env s).error = s.error := by
  unfold Contour.stopCamera
  by_cases hv : env.videoPresent = true
  · simp only [hv, if_true]
    cases hsrc : s.srcObject <;> simp
  · simp only [Bool.not_eq_true] at hv
    simp [hv]

theorem pixel_stopCamera_fields (env : Env) (s : Pixel.CameraState) :
    (Pixel.stopCamera env s).capturedImage = s.capturedImage ∧
    (Pixel.stopCamera env s).processedResult = s.processedResult ∧
    (Pixel.stopCamera env s).isProcessing = s.isProcessing ∧
    (Pixel.stopCamera env s).error = s.error := by
  unfold Pixel.stopCamera
  by_cases hv : env.videoPresent = true
  · simp only [hv, if_true]
    cases hsrc : s.srcObject <;> simp
  · simp only [Bool.not_eq_true] at hv
    simp [hv]

theorem contour_stopCamera_objectCount (env : Env) (s : Contour.CameraState) :
    (Contour.stopCamera env s).objectCount = s.objectCount :=
  (contour_stopCamera_fields env s).2.1

theorem contour_stopCamera_isProcessing (env : Env) (s : Contour.CameraState) :
    (Contour.stopCamera env s).isProcessing = s.isProcessing :=
  (contour_stopCamera_fields env s).2.2.1

theorem contour_stopCamera_error (env : Env) (s : Contour.CameraState) :
    (Contour.stopCamera env s).error = s.error :=
  (contour_stopCamera_fields env s).2.2.2

theorem pixel_stopCamera_processedResult (env : Env) (s : Pixel.CameraState) :
    (Pixel.stopCamera env s).processedResult = s.processedResult :=
  (pixel_stopCamera_fields env s).2.1

theorem pixel_stopCamera_isProcessing (env : Env) (s : Pixel.CameraState) :
    (Pixel.stopCamera env s).isProcessing = s.isProcessing :=
  (pixel_stopCamera_fields env s).2.2.1

theorem pixel_stopCamera_error (env : Env) (s : Pixel.CameraState) :
    (Pixel.stopCamera env s).error = s.error :=
  (pixel_stopCamera_fields env s).2.2.2

theorem contour_captureImage_fields (env : Env) (frame : String)
    (s : Contour.CameraState) :
    (Contour.captureImage env frame s).objectCount = s.objectCount ∧
    (Contour.captureImage env frame s).isProcessing = s.isProcessing ∧
    (Contour.captureImage env frame s).error = s.error := by
  unfold Contour.captureImage
  cases hv : env.videoPresent <;> cases hc : env.canvasPresent <;>
    cases hctx : env.contextOk <;>
      simp [contour_stopCamera_objectCount, contour_stopCamera_isProcessing,
            contour_stopCamera_error]

theorem pixel_captureImage_fields (env : Env) (frame : String)
    (s : Pixel.CameraState) :
    (Pixel.captureImage env frame s).processedResult = s.processedResult ∧
    (Pixel.captureImage env frame s).isProcessing = s.isProcessing ∧
    (Pixel.captureImage env frame s).error = s.error := by
  unfold Pixel.captureImage
  cases hv : env.videoPresent <;> cases hc : env.canvasPresent <;>
    cases hctx : env.contextOk <;>
      simp [pixel_stopCamera_processedResult, pixel_stopCamera_isProcessing,
            pixel_stopCamera_error]

theorem contour_processImageStart_fields (cvLoaded : Bool)
    (s : Contour.CameraState) :
    (Contour.processImageStart cvLoaded s).capturedImage = s.capturedImage ∧
    (Contour.processImageStart cvLoaded s).objectCount = s.objectCount ∧
    (Contour.processImageStart cvLoaded s).isStreaming = s.isStreaming ∧
    (Contour.processImageStart cvLoaded s).srcObject = s.srcObject ∧
    (Contour.processImageStart cvLoaded s).stoppedTracks = s.stoppedTracks := by
  unfold Contour.processImageStart
  cases hcv : cvLoaded <;> cases himg : s.capturedImage <;> simp

theorem pixel_processImageStart_fields (cvLoaded : Bool)
    (s : Pixel.CameraState) :
    (Pixel.processImageStart cvLoaded s).capturedImage = s.capturedImage ∧
    (Pixel.processImageStart cvLoaded s).processedResult = s.processedResult ∧
    (Pixel.processImageStart cvLoaded s).isStreaming = s.isStreaming ∧
    (Pixel.processImageStart cvLoaded s).srcObject = s.srcObject ∧
    (Pixel.processImageStart cvLoaded s).stoppedTracks = s.stoppedTracks := by
  unfold Pixel.processImageStart
  cases hcv : cvLoaded <;> cases himg : s.capturedImage <;> simp

theorem contour_processImageFinish_fields (b : Contour.CvBehavior)
    (s : Contour.CameraState) :
    (Contour.processImageFinish b s).1.capturedImage = s.capturedImage ∧
    (Contour.processImageFinish b s).1.isStreaming = s.isStreaming ∧
    (Contour.processImageFinish b s).1.srcObject = s.srcObject ∧
    (Contour.processImageFinish b s).1.isProcessing = false := by
  cases b <;> simp [Contour.processImageFinish]

theorem pixel_processImageFinish_fields (b : Pixel.CvBehavior)
    (s : Pixel.CameraState) :
    (Pixel.processImageFinish b s).1.capturedImage = s.capturedImage ∧
    (Pixel.processImageFinish b s).1.isStreaming = s.isStreaming ∧
    (Pixel.processImageFinish b s).1.srcObject = s.srcObject ∧
    (Pixel.processImageFinish b s).1.isProcessing = false := by
  cases b <;> simp [Pixel.processImageFinish]

/-! ### Claims -/

/-- C1: from the initial state, every sequence of completed operations keeps
at most one of {StreamHandle active (`isStreaming` with a bound `srcObject`),
CapturedFrame present} true, in both workflow variants; and `captureImage`
(with the refs available and a stream bound) sets the frame and detaches,
stops and un-flags the stream in the same step. -/
theorem claim_C1 :
    (∀ s : Contour.CameraState, Contour.Reachable s → Contour.exclusive s) ∧
    (∀ s : Pixel.CameraState, Pixel.Reachable s → Pixel.exclusive s) ∧
    (∀ (env : Env) (frame : String) (s : Contour.CameraState) (t : Nat),
      env.videoPresent = true → env.canvasPresent = true →
      env.contextOk = true → s.srcObject = some t →
      (Contour.captureImage env frame s).capturedImage = some frame ∧
      (Contour.captureImage env frame s).srcObject = none ∧
      (Contour.captureImage env frame s).isStreaming = false) ∧
    (∀ (env : Env) (frame : String) (s : Pixel.CameraState) (t : Nat),
      env.videoPresent = true → env.canvasPresent = true →
      env.contextOk = true → s.srcObject = some t →
      (Pixel.captureImage env frame s).capturedImage = some frame ∧
      (Pixel.captureImage env frame s).srcObject = none ∧
      (Pixel.captureImage env frame s).isStreaming = false) :=
  ⟨fun _ h => contour_reachable_exclusive h,
   fun _ h => pixel_reachable_exclusive h,
   fun env frame s t hv hc hctx hsrc =>
     contour_captureImage_releases env frame s t hv hc hctx hsrc,
   fun env frame s t hv hc hctx hsrc =>
     pixel_captureImage_releases env frame s t hv hc hctx hsrc⟩

/-- Witness for C1 at concrete inputs: the initial states satisfy the
exclusivity invariant, and a concrete capture from a streaming state with
stream 7 bound sets the frame and releases the stream. -/
theorem claim_C1_witness :
    Contour.exclusive Contour.initialState ∧
    Pixel.exclusive Pixel.initialState ∧
    (Contour.captureImage allRefs "url"
      { Contour.initialState with isStreaming := true, srcObject := some 7 }).srcObject = none ∧
    (Pixel.captureImage allRefs "url"
      { Pixel.initialState with isStreaming := true, srcObject := some 7 }).srcObject = none :=
  ⟨claim_C1.1 Contour.initialState Contour.Reachable.init,
   claim_C1.2.1 Pixel.initialState Pixel.Reachable.init,
   (claim_C1.2.2.1 allRefs "url" _ 7 rfl rfl rfl rfl).2.1,
   (claim_C1.2.2.2 allRefs "url" _ 7 rfl rfl rfl rfl).2.1⟩

/-- C2: with a frame captured, the workflow not streaming, the collaborator
loaded and every cv call succeeding, `processImage` stores exactly the
collaborator's count (the number of contours of area > 100 in the contour
variant, the `countNonZero` result in the pixel variant), clears
`isProcessing`, and leaves the frame present and the workflow not
streaming. -/
theorem claim_C2 :
    (∀ (s : Contour.CameraState) (img : String) (areas : List Nat),
      s.capturedImage = some img → s.isStreaming = false →
      (Contour.processImage true (.ok areas) s).state.objectCount =
        Contour.qualifyingCount areas ∧
      (Contour.processImage true (.ok areas) s).state.isProcessing = false ∧
      (Contour.processImage true (.ok areas) s).state.capturedImage = some img ∧
      (Contour.processImage true (.ok areas) s).state.isStreaming = false) ∧
    (∀ (s : Pixel.CameraState) (img : String) (n : Nat),
      s.capturedImage = some img → s.isStreaming = false →
      (Pixel.processImage true (.ok n) s).state.processedResult = some n ∧
      (Pixel.processImage true (.ok n) s).state.isProcessing = false ∧
      (Pixel.processImage true (.ok n) s).state.capturedImage = some img ∧
      (Pixel.processImage true (.ok n) s).state.isStreaming = false) := by
  constructor
  · intro s img areas himg hstream
    simp [Contour.processImage, Contour.processImageStart,
          Contour.processImageFinish, himg, hstream]
  · intro s img n himg hstream
    simp [Pixel.processImage, Pixel.processImageStart,
          Pixel.processImageFinish, himg, hstream]

/-- Witness for C2: processing a concrete captured state with contour areas
[150, 50, 101] yields count 2, and with `countNonZero` returning 42 yields
result 42. -/
theorem claim_C2_witness :
    (Contour.processImage true (.ok [150, 50, 101])
      Contour.sampleCaptured).state.objectCount =
        Contour.qualifyingCount [150, 50, 101] ∧
    (Pixel.processImage true (.ok 42)
      Pixel.sampleCaptured).state.processedResult = some 42 :=
  ⟨(claim_C2.1 Contour.sampleCaptured "data:image/jpeg;base64,AAAA"
      [150, 50, 101] rfl rfl).1,
   (claim_C2.2 Pixel.sampleCaptured "data:image/jpeg;base64,AAAA"
      42 rfl rfl).1⟩

/-- C3 as stated is false: in the initial state the workflow is not
streaming, yet `captureImage` (with the video and canvas refs present, as
they are while nothing is captured) is not a no-op — it stores a frame. -/
theorem claim_C3_counterexample :
    Contour.initialState.isStreaming = false ∧
    (Contour.captureImage allRefs "cap" Contour.initialState).capturedImage ≠
      Contour.initialState.capturedImage := by
  refine ⟨rfl, ?_⟩
  simp [Contour.captureImage, Contour.stopCamera, Contour.initialState, allRefs]

/-- C3 amended: `captureImage` is a no-op exactly when a ref is null or the
2d context is unavailable — the function has no `isStreaming` guard of its
own; while not streaming the UI simply does not render the Capture button, so
no capture step can fire from a non-streaming state. -/
theorem claim_C3_amended :
    (∀ (env : Env) (frame : String) (s : Contour.CameraState),
      (env.videoPresent && env.canvasPresent && env.contextOk) = false →
      Contour.captureImage env frame s = s) ∧
    (∀ (env : Env) (frame : String) (s : Pixel.CameraState),
      (env.videoPresent && env.canvasPresent && env.contextOk) = false →
      Pixel.captureImage env frame s = s) ∧
    (∀ (s s' : Contour.CameraState) (env : Env) (frame : String),
      Contour.UiStep s (.capture env frame) s' → s.isStreaming = true) ∧
    (∀ (s s' : Pixel.CameraState) (env : Env) (frame : String),
      Pixel.UiStep s (.capture env frame) s' → s.isStreaming = true) := by
  refine ⟨?_, ?_, ?_, ?_⟩
  · intro env frame s h
    unfold Contour.captureImage
    cases hv : env.videoPresent <;> cases hc : env.canvasPresent <;>
      cases hctx : env.contextOk <;> simp_all
  · intro env frame s h
    unfold Pixel.captureImage
    cases hv : env.videoPresent <;> cases hc : env.canvasPresent <;>
      cases hctx : env.contextOk <;> simp_all
  · intro s s' env frame h
    cases h with
    | capture env frame s hstream => exact hstream
  · intro s s' env frame h
    cases h with
    | capture env frame s hstream => exact hstream

/-- Witness for the amended C3: with a null video ref `captureImage` leaves
the initial state unchanged, and concrete capture steps do exist from
streaming states. -/
theorem claim_C3_amended_witness :
    Contour.captureImage noVideoRef "f" Contour.initialState =
      Contour.initialState ∧
    Pixel.captureImage noVideoRef "f" Pixel.initialState =
      Pixel.initialState ∧
    ({ Contour.initialState with
       isStreaming := true, srcObject := some 3 } : Contour.CameraState).isStreaming = true ∧
    ({ Pixel.initialState with
       isStreaming := true, srcObject := some 3 } : Pixel.CameraState).isStreaming = true :=
  ⟨claim_C3_amended.1 noVideoRef "f" Contour.initialState (by decide),
   claim_C3_amended.2.1 noVideoRef "f" Pixel.initialState (by decide),
   claim_C3_amended.2.2.1 _ _ allRefs "f"
     (Contour.UiStep.capture allRefs "f" _ rfl),
   claim_C3_amended.2.2.2 _ _ allRefs "f"
     (Pixel.UiStep.capture allRefs "f" _ rfl)⟩

/-- C4: when OpenCV.js is not loaded or no frame is captured, `processImage`
(either variant) sets the non-empty guard error message, invokes no
collaborator operation, allocates nothing, and changes no other field:
the result, the frame, the streaming flag and `isProcessing` are untouched. -/
theorem claim_C4 :
    (∀ (cvLoaded : Bool) (b : Contour.CvBehavior) (s : Contour.CameraState),
      cvLoaded = false ∨ s.capturedImage = none →
      Contour.processImage cvLoaded b s =
        { state := { s with error := some cvGuardErrorMsg },
          allocated := [], cvCalled := false } ∧
      cvGuardErrorMsg ≠ "") ∧
    (∀ (cvLoaded : Bool) (b : Pixel.CvBehavior) (s : Pixel.CameraState),
      cvLoaded = false ∨ s.capturedImage = none →
      Pixel.processImage cvLoaded b s =
        { state := { s with error := some cvGuardErrorMsg },
          allocated := [], cvCalled := false } ∧
      cvGuardErrorMsg ≠ "") := by
  constructor
  · intro cvLoaded b s h
    have hg : (cvLoaded && s.capturedImage.isSome) = false := by
      rcases h with h | h <;> simp [h]
    refine ⟨?_, by decide⟩
    simp [Contour.processImage, Contour.processImageStart, hg]
  · intro cvLoaded b s h
    have hg : (cvLoaded && s.capturedImage.isSome) = false := by
      rcases h with h | h <;> simp [h]
    refine ⟨?_, by decide⟩
    simp [Pixel.processImage, Pixel.processImageStart, hg]

/-- Witness for C4: with the library unloaded, processing a concrete captured
state only sets the guard error. -/
theorem claim_C4_witness :
    Contour.processImage false (.ok []) Contour.sampleCaptured =
      { state := { Contour.sampleCaptured with error := some cvGuardErrorMsg },
        allocated := [], cvCalled := false } ∧
    Pixel.processImage false (.ok 0) Pixel.sampleCaptured =
      { state := { Pixel.sampleCaptured with error := some cvGuardErrorMsg },
        allocated := [], cvCalled := false } :=
  ⟨(claim_C4.1 false (.ok []) Contour.sampleCaptured (Or.inl rfl)).1,
   (claim_C4.2 false (.ok 0) Pixel.sampleCaptured (Or.inl rfl)).1⟩

theorem contour_error_only_on_failure {s : Contour.CameraState}
    {a : Contour.Act} {s' : Contour.CameraState} (h : Contour.UiStep s a s')
    (h0 : s.error = none) (h1 : s'.error ≠ none) : Contour.StepFails s a := by
  cases h with
  | start env o s hstream himg =>
      cases o with
      | granted stream =>
          exfalso
          apply h1
          cases hv : env.videoPresent <;> simp [Contour.startCamera, hv, h0]
      | denied => simp [Contour.StepFails]
  | capture env frame s hstream =>
      exact absurd ((contour_captureImage_fields env frame s).2.2.trans h0) h1
  | processBegin cvLoaded s himg hproc =>
      cases hg : (cvLoaded && s.capturedImage.isSome) with
      | true =>
          exfalso
          apply h1
          simp [Contour.processImageStart, hg, h0]
      | false => simp [Contour.StepFails, hg]
  | processDone b s hproc =>
      cases b with
      | ok areas =>
          exfalso
          apply h1
          simp [Contour.processImageFinish, h0]
      | throwAt k msg => exact ⟨k, msg, rfl⟩
  | reset env o s himg =>
      cases o with
      | granted stream =>
          exfalso
          apply h1
          cases hv : env.videoPresent <;>
            simp [Contour.resetCapture, Contour.startCamera, hv, h0]
      | denied => simp [Contour.StepFails]
  | teardown env s =>
      exact absurd ((contour_stopCamera_error env s).trans h0) h1

theorem pixel_error_only_on_failure {s : Pixel.CameraState}
    {a : Pixel.Act} {s' : Pixel.CameraState} (h : Pixel.UiStep s a s')
    (h0 : s.error = none) (h1 : s'.error ≠ none) : Pixel.StepFails s a := by
  cases h with
  | start env o s hstream himg =>
      cases o with
      | granted stream =>
          exfalso
          apply h1
          cases hv : env.videoPresent <;> simp [Pixel.startCamera, hv, h0]
      | denied => simp [Pixel.StepFails]
  | capture env frame s hstream =>
      exact absurd ((pixel_captureImage_fields env frame s).2.2.trans h0) h1
  | processBegin cvLoaded s himg hproc =>
      cases hg : (cvLoaded && s.capturedImage.isSome) with
      | true =>
          exfalso
          apply h1
          simp [Pixel.processImageStart, hg]
      | false => simp [Pixel.StepFails, hg]
  | processDone b s hproc =>
      cases b with
      | ok n =>
          exfalso
          apply h1
          simp [Pixel.processImageFinish, h0]
      | throwAt k msg => exact ⟨k, msg, rfl⟩
  | retake env o s himg =>
      cases o with
      | granted stream =>
          exfalso
          apply h1
          cases hv : env.videoPresent <;>
            simp [Pixel.retakeImage, Pixel.startCamera, hv, h0]
      | denied => simp [Pixel.StepFails]
  | teardown env s =>
      exact absurd ((pixel_stopCamera_error env s).trans h0) h1

/-- C5 as stated is false: in the contour variant a state with a pending
error and a captured frame goes through a fully successful `processImage`
(collaborator returns a count, nothing throws) and the old error is still
there afterwards — the next successfully completing step does not clear
`ErrorState`. -/
theorem claim_C5_counterexample :
    ({ Contour.sampleCaptured with
       error := some "previous failure" } : Contour.CameraState).error ≠ none ∧
    (Contour.processImage true (.ok [200])
      { Contour.sampleCaptured with
        error := some "previous failure" }).state.error ≠ none := by
  constructor
  · simp
  · simp [Contour.processImage, Contour.processImageStart,
          Contour.processImageFinish, Contour.sampleCaptured]

/-- C5 amended: `ErrorState` becomes non-null only when a step fails (a
rejected `getUserMedia`, a `processImage` guard failure, or a collaborator
throw); it is cleared by a `startCamera` that binds a granted stream, and in
the pixel variant also by any `processImage` call passing its guard;
`captureImage` never touches it, and the contour variant's successful
`processImage` leaves it unchanged (so reset/retake clear it only through a
succeeding `startCamera`). -/
theorem claim_C5_amended :
    (∀ (s : Contour.CameraState) (a : Contour.Act) (s' : Contour.CameraState),
      Contour.UiStep s a s' → s.error = none → s'.error ≠ none →
      Contour.StepFails s a) ∧
    (∀ (s : Pixel.CameraState) (a : Pixel.Act) (s' : Pixel.CameraState),
      Pixel.UiStep s a s' → s.error = none → s'.error ≠ none →
      Pixel.StepFails s a) ∧
    (∀ (env : Env) (stream : Nat) (s : Contour.CameraState),
      env.videoPresent = true →
      (Contour.startCamera env (.granted stream) s).error = none) ∧
    (∀ (env : Env) (stream : Nat) (s : Pixel.CameraState),
      env.videoPresent = true →
      (Pixel.startCamera env (.granted stream) s).error = none) ∧
    (∀ (cvLoaded : Bool) (s : Pixel.CameraState),
      (cvLoaded && s.capturedImage.isSome) = true →
      (Pixel.processImageStart cvLoaded s).error = none) ∧
    (∀ (env : Env) (frame : String) (s : Contour.CameraState),
      (Contour.captureImage env frame s).error = s.error) ∧
    (∀ (s : Contour.CameraState) (areas : List Nat),
      s.capturedImage.isSome = true →
      (Contour.processImage true (.ok areas) s).state.error = s.error) := by
  refine ⟨?_, ?_, ?_, ?_, ?_, ?_, ?_⟩
  · intro s a s' h h0 h1
    exact contour_error_only_on_failure h h0 h1
  · intro s a s' h h0 h1
    exact pixel_error_only_on_failure h h0 h1
  · intro env stream s hv
    simp [Contour.startCamera, hv]
  · intro env stream s hv
    simp [Pixel.startCamera, hv]
  · intro cvLoaded s hg
    simp [Pixel.processImageStart, hg]
  · intro env frame s
    exact (contour_captureImage_fields env frame s).2.2
  · intro s areas himg
    simp [Contour.processImage, Contour.processImageStart,
          Contour.processImageFinish, himg]

/-- Witness for the amended C5: a concrete denied `startCamera` step from the
initial state fails (and indeed sets the error), a concrete granted start
clears the error, and a concrete pixel `processImage` guard pass clears it. -/
theorem claim_C5_amended_witness :
    Contour.StepFails Contour.initialState (.start allRefs .denied) ∧
    Pixel.StepFails Pixel.initialState (.start allRefs .denied) ∧
    (Contour.startCamera allRefs (.granted 1)
      { Contour.initialState with error := some "e" }).error = none ∧
    (Pixel.startCamera allRefs (.granted 1)
      { Pixel.initialState with error := some "e" }).error = none ∧
    (Pixel.processImageStart true
      { Pixel.sampleCaptured with error := some "e" }).error = none ∧
    (Contour.captureImage allRefs "f"
      { Contour.initialState with
        isStreaming := true
        srcObject := some 2 }).error =
      ({ Contour.initialState with
         isStreaming := true
         srcObject := some 2 } : Contour.CameraState).error ∧
    (Contour.processImage true (.ok [101])
      Contour.sampleCaptured).state.error = Contour.sampleCaptured.error :=
  ⟨claim_C5_amended.1 Contour.initialState (.start allRefs .denied) _
     (Contour.UiStep.start allRefs .denied Contour.initialState rfl rfl)
     rfl (by simp [Contour.startCamera, cameraErrorMsg]),
   claim_C5_amended.2.1 Pixel.initialState (.start allRefs .denied) _
     (Pixel.UiStep.start allRefs .denied Pixel.initialState rfl rfl)
     rfl (by simp [Pixel.startCamera, cameraErrorMsg]),
   claim_C5_amended.2.2.1 allRefs 1 _ rfl,
   claim_C5_amended.2.2.2.1 allRefs 1 _ rfl,
   claim_C5_amended.2.2.2.2.1 true _ rfl,
   claim_C5_amended.2.2.2.2.2.1 allRefs "f" _,
   claim_C5_amended.2.2.2.2.2.2 Contour.sampleCaptured [101] rfl⟩

/-- C6: the release-on-every-exit-path contract is violated on the throw
path.  At the failing input — frame captured, library loaded, `cv.cvtColor`
(the third cv operation) throws — the call completes with `mat` and `gray`
still allocated: control jumps from the throw to `catch`, past every
`delete`, and no release ever happens for them.  On the fully successful
path every allocated structure is released, as the claim demands. -/
theorem claim_C6_bug :
    (Contour.processImage true (.throwAt 2 "cvtColor failed")
      Contour.sampleCaptured).allocated = ["mat", "gray"] ∧
    (Pixel.processImage true (.throwAt 2 "cvtColor failed")
      Pixel.sampleCaptured).allocated = ["mat", "gray"] ∧
    (Contour.processImage true (.throwAt 9 "findContours failed")
      Contour.sampleCaptured).allocated =
      ["mat", "gray", "blurred", "thresh", "contours", "hierarchy"] ∧
    (Contour.processImage true (.ok [200, 50])
      Contour.sampleCaptured).allocated = [] ∧
    (Pixel.processImage true (.ok 3) Pixel.sampleCaptured).allocated = [] := by
  decide

/-- C7: a click on the Process button while `isProcessing` holds is ignored —
the button is `disabled`, so no collaborator call is made, nothing is
allocated and no state changes — and no `processImage` invocation step is
enabled from a Processing state in either variant's step relation. -/
theorem claim_C7 :
    (∀ (cvLoaded : Bool) (b : Contour.CvBehavior) (s : Contour.CameraState),
      s.isProcessing = true →
      Contour.processImageClick cvLoaded b s =
        { state := s, allocated := [], cvCalled := false }) ∧
    (∀ (cvLoaded : Bool) (b : Pixel.CvBehavior) (s : Pixel.CameraState),
      s.isProcessing = true →
      Pixel.processImageClick cvLoaded b s =
        { state := s, allocated := [], cvCalled := false }) ∧
    (∀ (s s' : Contour.CameraState) (cvLoaded : Bool),
      Contour.UiStep s (.processBegin cvLoaded) s' → s.isProcessing = false) ∧
    (∀ (s s' : Pixel.CameraState) (cvLoaded : Bool),
      Pixel.UiStep s (.processBegin cvLoaded) s' → s.isProcessing = false) := by
  refine ⟨?_, ?_, ?_, ?_⟩
  · intro cvLoaded b s h
    simp [Contour.processImageClick, h]
  · intro cvLoaded b s h
    simp [Pixel.processImageClick, h]
  · intro s s' cvLoaded h
    cases h with
    | processBegin cvLoaded s himg hproc => exact hproc
  · intro s s' cvLoaded h
    cases h with
    | processBegin cvLoaded s himg hproc => exact hproc

/-- Witness for C7: a concrete click while processing changes nothing, and a
concrete enabled `processImage` step starts from a non-processing state. -/
theorem claim_C7_witness :
    Contour.processImageClick true (.ok [200])
      { Contour.sampleCaptured with isProcessing := true } =
      { state := { Contour.sampleCaptured with isProcessing := true },
        allocated := [], cvCalled := false } ∧
    Pixel.processImageClick true (.ok 5)
      { Pixel.sampleCaptured with isProcessing := true } =
      { state := { Pixel.sampleCaptured with isProcessing := true },
        allocated := [], cvCalled := false } ∧
    Contour.sampleCaptured.isProcessing = false ∧
    Pixel.sampleCaptured.isProcessing = false :=
  ⟨claim_C7.1 true (.ok [200]) _ rfl,
   claim_C7.2.1 true (.ok 5) _ rfl,
   claim_C7.2.2.1 _ _ true
     (Contour.UiStep.processBegin true Contour.sampleCaptured rfl rfl),
   claim_C7.2.2.2 _ _ true
     (Pixel.UiStep.processBegin true Pixel.sampleCaptured rfl rfl)⟩

/-- C8 as stated is false: from a captured state, retake with the camera
permission granted but the video ref null (as it is in the pixel variant
while a captured image replaces the video element) does not re-enter
Streaming. -/
theorem claim_C8_counterexample :
    Pixel.sampleCaptured.capturedImage.isSome = true ∧
    (Pixel.retakeImage noVideoRef (.granted 0)
      Pixel.sampleCaptured).isStreaming = false := by
  decide

/-- C8 amended: retake/reset always clears both the frame and the result; it
re-enters Streaming when `getUserMedia` grants a stream and the video element
ref is non-null — a grant alone does not suffice, since with a null ref the
inner `startCamera` drops the granted stream and the workflow stays
non-streaming. -/
theorem claim_C8_amended :
    (∀ (env : Env) (o : MediaOutcome) (s : Contour.CameraState),
      (Contour.resetCapture env o s).capturedImage = none ∧
      (Contour.resetCapture env o s).objectCount = 0) ∧
    (∀ (env : Env) (o : MediaOutcome) (s : Pixel.CameraState),
      (Pixel.retakeImage env o s).capturedImage = none ∧
      (Pixel.retakeImage env o s).processedResult = none) ∧
    (∀ (env : Env) (stream : Nat) (s : Contour.CameraState),
      env.videoPresent = true →
      (Contour.resetCapture env (.granted stream) s).isStreaming = true) ∧
    (∀ (env : Env) (stream : Nat) (s : Pixel.CameraState),
      env.videoPresent = true →
      (Pixel.retakeImage env (.granted stream) s).isStreaming = true) := by
  refine ⟨?_, ?_, ?_, ?_⟩
  · intro env o s
    have h := contour_startCamera_fields env o
      { s with capturedImage := none, objectCount := 0 }
    exact ⟨by simpa [Contour.resetCapture] using h.1,
           by simpa [Contour.resetCapture] using h.2.1⟩
  · intro env o s
    have h := pixel_startCamera_fields env o
      { s with capturedImage := none, processedResult := none }
    exact ⟨by simpa [Pixel.retakeImage] using h.1,
           by simpa [Pixel.retakeImage] using h.2.1⟩
  · intro env stream s hv
    simp [Contour.resetCapture, Contour.startCamera, hv]
  · intro env stream s hv
    simp [Pixel.retakeImage, Pixel.startCamera, hv]

/-- Witness for the amended C8: concrete retakes clear frame and result, and
with all refs present a granted retake re-enters Streaming. -/
theorem claim_C8_amended_witness :
    (Contour.resetCapture allRefs (.granted 4)
      Contour.sampleCaptured).capturedImage = none ∧
    (Pixel.retakeImage allRefs (.granted 4)
      Pixel.sampleCaptured).processedResult = none ∧
    (Contour.resetCapture allRefs (.granted 4)
      Contour.sampleCaptured).isStreaming = true ∧
    (Pixel.retakeImage allRefs (.granted 4)
      Pixel.sampleCaptured).isStreaming = true :=
  ⟨(claim_C8_amended.1 allRefs (.granted 4) Contour.sampleCaptured).1,
   (claim_C8_amended.2.1 allRefs (.granted 4) Pixel.sampleCaptured).2,
   claim_C8_amended.2.2.1 allRefs 4 Contour.sampleCaptured rfl,
   claim_C8_amended.2.2.2 allRefs 4 Pixel.sampleCaptured rfl⟩

theorem contour_objectCount_change {s : Contour.CameraState}
    {a : Contour.Act} {s' : Contour.CameraState} (h : Contour.UiStep s a s')
    (hne : s'.objectCount ≠ s.objectCount) :
    (∃ areas, a = .processDone (.ok areas) ∧
      s'.objectCount = Contour.qualifyingCount areas) ∨
    (∃ env o, a = .reset env o ∧ s'.objectCount = 0) := by
  cases h with
  | start env o s hstream himg =>
      exact absurd (contour_startCamera_fields env o s).2.1 hne
  | capture env frame s hstream =>
      exact absurd (contour_captureImage_fields env frame s).1 hne
  | processBegin cvLoaded s himg hproc =>
      exact absurd (contour_processImageStart_fields cvLoaded s).2.1 hne
  | processDone b s hproc =>
      cases b with
      | ok areas =>
          exact Or.inl ⟨areas, rfl, by simp [Contour.processImageFinish]⟩
      | throwAt k msg =>
          exact absurd (by simp [Contour.processImageFinish]) hne
  | reset env o s himg =>
      refine Or.inr ⟨env, o, rfl, ?_⟩
      have h := (contour_startCamera_fields env o
        { s with capturedImage := none, objectCount := 0 }).2.1
      simpa [Contour.resetCapture] using h
  | teardown env s =>
      exact absurd (contour_stopCamera_objectCount env s) hne

theorem pixel_processedResult_change {s : Pixel.CameraState}
    {a : Pixel.Act} {s' : Pixel.CameraState} (h : Pixel.UiStep s a s')
    (hne : s'.processedResult ≠ s.processedResult) :
    (∃ n, a = .processDone (.ok n) ∧ s'.processedResult = some n) ∨
    (∃ env o, a = .retake env o ∧ s'.processedResult = none) := by
  cases h with
  | start env o s hstream himg =>
      exact absurd (pixel_startCamera_fields env o s).2.1 hne
  | capture env frame s hstream =>
      exact absurd (pixel_captureImage_fields env frame s).1 hne
  | processBegin cvLoaded s himg hproc =>
      exact absurd (pixel_processImageStart_fields cvLoaded s).2.1 hne
  | processDone b s hproc =>
      cases b with
      | ok n =>
          exact Or.inl ⟨n, rfl, by simp [Pixel.processImageFinish]⟩
      | throwAt k msg =>
          exact absurd (by simp [Pixel.processImageFinish]) hne
  | retake env o s himg =>
      refine Or.inr ⟨env, o, rfl, ?_⟩
      have h := (pixel_startCamera_fields env o
        { s with capturedImage := none, processedResult := none }).2.1
      simpa [Pixel.retakeImage] using h
  | teardown env s =>
      exact absurd (pixel_stopCamera_processedResult env s) hne

/-- C9: the processing result is absent initially (0 in the contour variant,
whose UI treats 0 as "no result"; null in the pixel variant); across any
completed event it changes only when a processing pass completes successfully
(then it equals the collaborator's count) or on retake/reset (then it is
absent again); and retake/reset always returns it to absent. -/
theorem claim_C9 :
    Contour.initialState.objectCount = 0 ∧
    Pixel.initialState.processedResult = none ∧
    (∀ (s : Contour.CameraState) (a : Contour.Act) (s' : Contour.CameraState),
      Contour.UiStep s a s' → s'.objectCount ≠ s.objectCount →
      (∃ areas, a = .processDone (.ok areas) ∧
        s'.objectCount = Contour.qualifyingCount areas) ∨
      (∃ env o, a = .reset env o ∧ s'.objectCount = 0)) ∧
    (∀ (s : Pixel.CameraState) (a : Pixel.Act) (s' : Pixel.CameraState),
      Pixel.UiStep s a s' → s'.processedResult ≠ s.processedResult →
      (∃ n, a = .processDone (.ok n) ∧ s'.processedResult = some n) ∨
      (∃ env o, a = .retake env o ∧ s'.processedResult = none)) ∧
    (∀ (s : Contour.CameraState) (env : Env) (o : MediaOutcome)
      (s' : Contour.CameraState),
      Contour.UiStep s (.reset env o) s' → s'.objectCount = 0) ∧
    (∀ (s : Pixel.CameraState) (env : Env) (o : MediaOutcome)
      (s' : Pixel.CameraState),
      Pixel.UiStep s (.retake env o) s' → s'.processedResult = none) := by
  refine ⟨rfl, rfl, ?_, ?_, ?_, ?_⟩
  · intro s a s' h hne
    exact contour_objectCount_change h hne
  · intro s a s' h hne
    exact pixel_processedResult_change h hne
  · intro s env o s' h
    cases h with
    | reset env o s himg =>
        have h := (contour_startCamera_fields env o
          { s with capturedImage := none, objectCount := 0 }).2.1
        simpa [Contour.resetCapture] using h
  · intro s env o s' h
    cases h with
    | retake env o s himg =>
        have h := (pixel_startCamera_fields env o
          { s with capturedImage := none, processedResult := none }).2.1
        simpa [Pixel.retakeImage] using h

/-- Witness for C9: a concrete successful processing step changes the count
as the third conjunct says, and concrete reset/retake steps return the result
to absent. -/
theorem claim_C9_witness :
    ((∃ areas, Contour.Act.processDone (Contour.CvBehavior.ok [200]) =
        Contour.Act.processDone (Contour.CvBehavior.ok areas) ∧
      (Contour.processImageFinish (Contour.CvBehavior.ok [200])
        { Contour.sampleCaptured with isProcessing := true }).1.objectCount =
        Contour.qualifyingCount areas) ∨
     (∃ env o, Contour.Act.processDone (Contour.CvBehavior.ok [200]) =
        Contour.Act.reset env o ∧
      (Contour.processImageFinish (Contour.CvBehavior.ok [200])
        { Contour.sampleCaptured with isProcessing := true }).1.objectCount = 0)) ∧
    (Contour.resetCapture allRefs (.granted 9)
      { Contour.sampleCaptured with objectCount := 5 }).objectCount = 0 ∧
    (Pixel.retakeImage allRefs (.granted 9)
      { Pixel.sampleCaptured with processedResult := some 5 }).processedResult =
      none :=
  ⟨claim_C9.2.2.1 _ (.processDone (.ok [200])) _
     (Contour.UiStep.processDone (.ok [200])
       { Contour.sampleCaptured with isProcessing := true } rfl)
     (by decide),
   claim_C9.2.2.2.2.1 _ allRefs (.granted 9) _
     (Contour.UiStep.reset allRefs (.granted 9)
       { Contour.sampleCaptured with objectCount := 5 } rfl),
   claim_C9.2.2.2.2.2 _ allRefs (.granted 9) _
     (Pixel.UiStep.retake allRefs (.granted 9)
       { Pixel.sampleCaptured with processedResult := some 5 } rfl)⟩

/-- C10: when `getUserMedia` grants a stream but `videoRef.current` is null,
`startCamera` returns the state completely unchanged — no field moves, so in
particular the granted stream is neither bound (`srcObject` untouched) nor
stopped (`stoppedTracks` untouched) — in both variants. -/
theorem claim_C10 :
    (∀ (env : Env) (stream : Nat) (s : Contour.CameraState),
      env.videoPresent = false →
      Contour.startCamera env (.granted stream) s = s) ∧
    (∀ (env : Env) (stream : Nat) (s : Pixel.CameraState),
      env.videoPresent = false →
      Pixel.startCamera env (.granted stream) s = s) := by
  constructor
  · intro env stream s hv
    simp [Contour.startCamera, hv]
  · intro env stream s hv
    simp [Pixel.startCamera, hv]

/-- Witness for C10: a concrete grant with a null video ref leaves a captured
state exactly as it was. -/
theorem claim_C10_witness :
    Contour.startCamera noVideoRef (.granted 3) Contour.sampleCaptured =
      Contour.sampleCaptured ∧
    Pixel.startCamera noVideoRef (.granted 3) Pixel.sampleCaptured =
      Pixel.sampleCaptured :=
  ⟨claim_C10.1 noVideoRef 3 Contour.sampleCaptured rfl,
   claim_C10.2 noVideoRef 3 Pixel.sampleCaptured rfl⟩
